import Mathlib

/-!
Shallow embedding of the Celestia data-availability client
(core/node/da_clients/src/celestia/client.rs) and proofs of its
specified properties.

External library calls (hex, bincode, celestia transport, the eq-service
gRPC surface) are modelled either faithfully from their documented wire
behaviour (hex, bincode fixed layout) or as environment parameters
(network effects), so that the decision logic of client.rs is embedded
verbatim as pure Lean functions.
-/

namespace Celestia

/-- Lowercase hex digit character for a value below 16, as produced by the
hex crate encoder. -/
def natToHexDigit (n : Nat) : Char :=
  if n < 10 then Char.ofNat (48 + n) else Char.ofNat (87 + n)

/-- Value of one hex digit character; the hex crate decoder accepts both
lowercase and uppercase digits. -/
def hexDigitToNat (c : Char) : Option Nat :=
  if 48 ≤ c.toNat ∧ c.toNat ≤ 57 then some (c.toNat - 48)
  else if 97 ≤ c.toNat ∧ c.toNat ≤ 102 then some (c.toNat - 87)
  else if 65 ≤ c.toNat ∧ c.toNat ≤ 70 then some (c.toNat - 55)
  else none

/-- hex::encode on a byte list: two lowercase digits per byte. -/
def hexEncode : List Nat → List Char
  | [] => []
  | b :: bs => natToHexDigit (b / 16) :: natToHexDigit (b % 16) :: hexEncode bs

/-- hex::decode on a character list: fails on an odd length or on any
character that is not a hex digit. -/
def hexDecode : List Char → Option (List Nat)
  | [] => some []
  | [_] => none
  | c1 :: c2 :: rest =>
    match hexDigitToNat c1, hexDigitToNat c2, hexDecode rest with
    | some hi, some lo, some tail => some ((16 * hi + lo) :: tail)
    | _, _, _ => none

/-- hex::encode producing a String. -/
def hex_encode (bytes : List Nat) : String :=
  String.mk (hexEncode bytes)

/-- hex::decode taking a String. -/
def hex_decode (s : String) : Option (List Nat) :=
  hexDecode s.data

/-- Little-endian fixed 8-byte encoding of a u64, the bincode v1 default
integer encoding. -/
def u64ToLEBytes (n : Nat) : List Nat :=
  [n % 256, n / 256 % 256, n / 65536 % 256, n / 16777216 % 256,
   n / 4294967296 % 256, n / 1099511627776 % 256,
   n / 281474976710656 % 256, n / 72057594037927936 % 256]

/-- Little-endian value of a byte list. -/
def leBytesToNat : List Nat → Nat
  | [] => 0
  | b :: rest => b + 256 * leBytesToNat rest

/-- celestia_types blob Commitment: a 32-byte content hash. -/
structure Commitment where
  bytes : List Nat
deriving DecidableEq, Repr

/-- celestia_types nmt Namespace: a 29-byte namespace identifier
(1 version byte plus 28 id bytes). -/
structure Namespace where
  bytes : List Nat
deriving DecidableEq, Repr

/-- BlobId from client.rs: the durable identifier
(commitment, namespace, height). -/
structure BlobId where
  commitment : Commitment
  ns : Namespace
  height : Nat
deriving DecidableEq, Repr

/-- A byte list is valid when every entry fits in one byte. -/
def ValidBytes (bs : List Nat) : Prop :=
  ∀ b ∈ bs, b < 256

instance (bs : List Nat) : Decidable (ValidBytes bs) :=
  List.decidableBAll _ bs

/-- A BlobId is valid when its commitment is 32 bytes, its namespace is
29 bytes, and its height fits in a u64. -/
def BlobId.Valid (id : BlobId) : Prop :=
  id.commitment.bytes.length = 32 ∧ ValidBytes id.commitment.bytes ∧
    id.ns.bytes.length = 29 ∧ ValidBytes id.ns.bytes ∧
    id.height < 18446744073709551616

instance (id : BlobId) : Decidable id.Valid := by
  unfold BlobId.Valid; infer_instance

/-- bincode::serialize of a BlobId under the serde derive: the fixed layout
32 commitment bytes, then 29 namespace bytes, then the height as 8
little-endian bytes. -/
def bincodeSerialize (id : BlobId) : List Nat :=
  id.commitment.bytes ++ id.ns.bytes ++ u64ToLEBytes id.height

/-- bincode::deserialize of a BlobId: reads 32 commitment bytes, 29
namespace bytes and 8 height bytes in order; fails when fewer than 69
bytes are available. -/
def bincodeDeserialize (bs : List Nat) : Option BlobId :=
  if 69 ≤ bs.length then
    some
      { commitment := ⟨bs.take 32⟩
        ns := ⟨(bs.drop 32).take 29⟩
        height := leBytesToNat ((bs.drop 61).take 8) }
  else none

/-- The external opaque string of a BlobId: hex encoding of the fixed
binary serialization, as built at the end of dispatch_blob. -/
def encodeBlobId (id : BlobId) : String :=
  hex_encode (bincodeSerialize id)

/-- Recovering a BlobId from the opaque string: hex decode then binary
decode, as performed at the start of get_inclusion_data. -/
def decodeBlobId (s : String) : Option BlobId :=
  (hex_decode s).bind bincodeDeserialize

/-- DAError from zksync_da_client types: the sole failure representation
crossing the public boundary. The anyhow cause is modelled by its
message string. -/
structure DAError where
  error : String
  is_retriable : Bool
deriving DecidableEq, Repr

/-- utils::to_non_retriable_da_error. -/
def to_non_retriable_da_error (e : String) : DAError :=
  { error := e, is_retriable := false }

/-- utils::to_retriable_da_error. -/
def to_retriable_da_error (e : String) : DAError :=
  { error := e, is_retriable := true }

/-- zksync_da_client types InclusionData: proof payload bytes. -/
structure InclusionData where
  data : List Nat
deriving DecidableEq, Repr

/-- zksync_da_client types DispatchResponse: the opaque blob id string. -/
structure DispatchResponse where
  blob_id : String
deriving DecidableEq, Repr

/-- Modelled from the spec: the status enumeration of the eq-service
GetKeccakInclusionResponse (crate eq_common, outside the sampled sources).
The client distinguishes only Complete; every other known code means
not yet complete. -/
inductive InclusionResponseStatus
  | failed
  | waiting
  | working
  | complete
deriving DecidableEq, Repr

/-- Modelled from the spec: the decoded oneof response value of the
eq-service response; a proof payload or some other value. -/
inductive InclusionResponseValue
  | proof (p : List Nat)
  | errorMessage (m : String)
deriving DecidableEq, Repr

/-- Modelled from the spec: the raw wire form of the oneof response value,
which may carry an unknown discriminant that fails conversion. -/
inductive RawResponseValue
  | none
  | proof (p : List Nat)
  | errorMessage (m : String)
  | unknown (discriminant : Int)
deriving DecidableEq, Repr

/-- Modelled from the spec: the raw gRPC response of the eq-service, with
the status still a raw i32 code and the value still in wire form. -/
structure GetKeccakInclusionResponse where
  status : Int
  response_value : RawResponseValue
deriving DecidableEq, Repr

/-- Modelled from the spec: TryFrom of a raw i32 status code into the
status enumeration; an unknown code does not convert. The concrete code
assignment is not observable through the client. -/
def statusTryFrom (raw : Int) : Option InclusionResponseStatus :=
  if raw = 0 then some .failed
  else if raw = 1 then some .waiting
  else if raw = 2 then some .working
  else if raw = 3 then some .complete
  else none

/-- Modelled from the spec: TryFrom of the raw wire value into the decoded
optional response value; an unknown discriminant does not convert. -/
def responseValueTryFrom (raw : RawResponseValue) :
    Option (Option InclusionResponseValue) :=
  match raw with
  | .none => some Option.none
  | .proof p => some (some (.proof p))
  | .errorMessage m => some (some (.errorMessage m))
  | .unknown _ => Option.none

/-- A gRPC channel handle (tonic transport Channel), abstracted to an
identifier. -/
structure Channel where
  id : Nat
deriving DecidableEq, Repr

/-- Modelled from the spec: the integration (inclusion-proof) service
client of celestia/integration_service.rs, which is outside the sampled
sources; it wraps the gRPC channel it was given. -/
structure IntegrationClient where
  channel : Channel
deriving DecidableEq, Repr

/-- IntegrationClient construction: wraps the channel, infallible. -/
def IntegrationClient.new (channel : Channel) : IntegrationClient :=
  ⟨channel⟩

/-- Modelled from the spec: RawCelestiaClient of celestia/sdk.rs (outside
the sampled sources); the network submission channel, holding the gRPC
channel, the signing key materialized from the secret, and the chain id. -/
structure RawCelestiaClient where
  grpc_channel : Channel
  private_key : String
  chain_id : String
deriving DecidableEq, Repr

/-- CelestiaConfig from zksync_config: endpoint URLs, timeout, hex-encoded
namespace and chain id. The namespace field is spelled ns because the
Rust field name is a reserved word in Lean. -/
structure CelestiaConfig where
  api_node_url : String
  integration_service_url : String
  timeout_ms : Nat
  ns : String
  chain_id : String
deriving DecidableEq, Repr

/-- CelestiaSecrets: the private signing key. -/
structure CelestiaSecrets where
  private_key : String
deriving DecidableEq, Repr

/-- The CelestiaClient struct: configuration plus the two channel
wrappers. -/
structure CelestiaClient where
  config : CelestiaConfig
  integration_client : IntegrationClient
  celestia_client : RawCelestiaClient
deriving DecidableEq, Repr

/-- Outcome of a constructor that can also abort through expect: a panic
is distinct from a returned error. -/
inductive NewOutcome (α : Type)
  | ok (value : α)
  | error (e : String)
  | panicked (msg : String)
deriving DecidableEq, Repr

/-- Environment of CelestiaClient::new: the effectful outcomes of endpoint
connection (Endpoint::from_str, timeout and connect collapsed into one
fallible call per URL) and of RawCelestiaClient::new (None when the raw
client is created, Some error when it fails and expect panics). -/
structure NewEnv where
  endpointConnect : String → Nat → Except String Channel
  rawClientNewFail : Channel → String → String → Option String

/-- CelestiaClient::new: eagerly connects the network channel, builds the
signing client (panicking through expect on failure), eagerly connects
the integration channel, and only then assembles the client. -/
def CelestiaClient.new (env : NewEnv) (config : CelestiaConfig)
    (secrets : CelestiaSecrets) : NewOutcome CelestiaClient :=
  match env.endpointConnect config.api_node_url config.timeout_ms with
  | .error e => .error e
  | .ok celestia_grpc_channel =>
    let private_key := secrets.private_key
    match env.rawClientNewFail celestia_grpc_channel private_key config.chain_id with
    | some _ => .panicked "could not create Celestia client"
    | Option.none =>
      let client : RawCelestiaClient :=
        ⟨celestia_grpc_channel, private_key, config.chain_id⟩
      match env.endpointConnect config.integration_service_url config.timeout_ms with
      | .error e => .error e
      | .ok integration_grpc_channel =>
        let integration_client := IntegrationClient.new integration_grpc_channel
        .ok ⟨config, integration_client, client⟩

/-- A Celestia blob: namespace, payload bytes, and the commitment computed
by Blob::new. -/
structure Blob where
  ns : Namespace
  data : List Nat
  commitment : Commitment
deriving DecidableEq, Repr

/-- A prepared signed blob transaction, abstracted to its raw bytes. -/
structure BlobTx where
  raw : List Nat
deriving DecidableEq, Repr

/-- A blob transaction hash, abstracted to its bytes. -/
structure BlobTxHash where
  bytes : List Nat
deriving DecidableEq, Repr

/-- Environment of the dispatch and inclusion operations: the outcomes of
the external celestia_types constructors, of the network submission
channel methods, and of the integration service query. Errors carry
their message. -/
structure DispatchEnv where
  namespaceNewV0 : List Nat → Except String Namespace
  blobNew : Namespace → List Nat → Except String Blob
  prepare : List Blob → Except String BlobTx
  computeBlobTxHash : BlobTx → BlobTxHash
  submit : BlobTxHash → BlobTx → Except String Nat
  getKeccakInclusion : BlobId → Except String GetKeccakInclusionResponse

/-- dispatch_blob from client.rs: decode the configured namespace, build
the blob, prepare and submit the transaction, assemble and serialize the
BlobId, register it with the integration service, and return its hex
string. The batch number argument is ignored by the source. -/
def CelestiaClient.dispatch_blob (env : DispatchEnv) (self : CelestiaClient)
    (data : List Nat) : Except DAError DispatchResponse :=
  match hex_decode self.config.ns with
  | Option.none => .error (to_non_retriable_da_error "namespace hex decode error")
  | some namespace_bytes =>
  match env.namespaceNewV0 namespace_bytes with
  | .error e => .error (to_non_retriable_da_error e)
  | .ok ns =>
  match env.blobNew ns data with
  | .error e => .error (to_non_retriable_da_error e)
  | .ok blob =>
  let commitment := blob.commitment
  match env.prepare [blob] with
  | .error e => .error (to_non_retriable_da_error e)
  | .ok blob_tx =>
  let blob_tx_hash := env.computeBlobTxHash blob_tx
  match env.submit blob_tx_hash blob_tx with
  | .error e => .error (to_non_retriable_da_error e)
  | .ok height =>
  let blob_id : BlobId := ⟨commitment, ns, height⟩
  let blob_bytes := bincodeSerialize blob_id
  match env.getKeccakInclusion blob_id with
  | .error tonic_status => .error { error := tonic_status, is_retriable := true }
  | .ok _ => .ok { blob_id := hex_encode blob_bytes }

/-- get_inclusion_data from client.rs: decode the opaque id, query the
integration service, convert the raw value and status, and interpret the
status. -/
def CelestiaClient.get_inclusion_data (env : DispatchEnv)
    (_self : CelestiaClient) (blob_id : String) :
    Except DAError (Option InclusionData) :=
  match hex_decode blob_id with
  | Option.none => .error (to_non_retriable_da_error "blob id hex decode error")
  | some blob_id_bytes =>
  match bincodeDeserialize blob_id_bytes with
  | Option.none => .error (to_non_retriable_da_error "blob id bincode decode error")
  | some bid =>
  match env.getKeccakInclusion bid with
  | .error e => .error (to_retriable_da_error e)
  | .ok response =>
  match responseValueTryFrom response.response_value with
  | Option.none => .error (to_non_retriable_da_error "response value conversion error")
  | some response_data =>
  match statusTryFrom response.status with
  | Option.none => .error (to_non_retriable_da_error "status conversion error")
  | some response_status =>
  match response_status with
  | .complete =>
    match response_data with
    | some (.proof proof) => .ok (some { data := proof })
    | _ =>
      .error { error := "Complete status should be accompanied by a Proof, eq-service is broken",
               is_retriable := false }
  | _ => .ok Option.none

/-- blob_size_limit from client.rs: the fixed advisory constant. -/
def CelestiaClient.blob_size_limit (_self : CelestiaClient) : Option Nat :=
  some 1973786

/-- The Debug implementation for CelestiaClient: renders only the
api_node_url and namespace configuration fields. -/
def CelestiaClient.debugFmt (self : CelestiaClient) : String :=
  "CelestiaClient \x7b config.api_node_url: \"" ++ self.config.api_node_url ++
    "\", config.namespace: \"" ++ self.config.ns ++ "\" \x7d"

/-- Discriminator: whether a construction outcome is a returned error. -/
def NewOutcome.isError {α : Type} : NewOutcome α → Bool
  | .error _ => true
  | _ => false

/-- The all-zero valid BlobId, used as a concrete evaluation point. -/
def zeroBlobId : BlobId :=
  ⟨⟨List.replicate 32 0⟩, ⟨List.replicate 29 0⟩, 0⟩

/-- The opaque string of the all-zero BlobId. -/
def zeroBlobIdStr : String :=
  encodeBlobId zeroBlobId

/-- A concrete configuration used as an evaluation point. -/
def witConfig : CelestiaConfig :=
  { api_node_url := "http://celestia-node:9090"
    integration_service_url := "http://eq-service:50051"
    timeout_ms := 30000
    ns := "0011"
    chain_id := "mocha-4" }

/-- Concrete secrets used as an evaluation point. -/
def witSecrets : CelestiaSecrets :=
  ⟨"secret-key"⟩

/-- A concrete client used as an evaluation point. -/
def witClient : CelestiaClient :=
  { config := witConfig
    integration_client := ⟨⟨1⟩⟩
    celestia_client := ⟨⟨0⟩, "secret-key", "mocha-4"⟩ }

/-- The same client with a different signing key and nothing else
changed. -/
def witClientOtherKey : CelestiaClient :=
  { config := witConfig
    integration_client := ⟨⟨1⟩⟩
    celestia_client := ⟨⟨0⟩, "another-key", "mocha-4"⟩ }

/-- An environment in which every external call succeeds and the
integration service answers with the given response. -/
def okResponseEnv (resp : GetKeccakInclusionResponse) : DispatchEnv :=
  { namespaceNewV0 := fun bs => .ok ⟨bs⟩
    blobNew := fun ns d => .ok ⟨ns, d, ⟨List.replicate 32 0⟩⟩
    prepare := fun _ => .ok ⟨[]⟩
    computeBlobTxHash := fun _ => ⟨[]⟩
    submit := fun _ _ => .ok 7
    getKeccakInclusion := fun _ => .ok resp }

/-- An environment in which everything up to submission succeeds but the
integration service call fails at the transport level. -/
def errInclusionEnv : DispatchEnv :=
  { okResponseEnv ⟨0, RawResponseValue.none⟩ with
    getKeccakInclusion := fun _ => .error "transport down" }

/-- A construction environment in which both endpoint connections succeed
and the raw client is created. -/
def okNewEnv : NewEnv :=
  { endpointConnect := fun _ _ => .ok ⟨0⟩
    rawClientNewFail := fun _ _ _ => Option.none }

/-- A construction environment in which endpoint connections succeed but
RawCelestiaClient creation fails. -/
def panicNewEnv : NewEnv :=
  { endpointConnect := fun _ _ => .ok ⟨0⟩
    rawClientNewFail := fun _ _ _ => some "bad key" }

/-- The BlobId assembled by dispatch under okResponseEnv and witConfig. -/
def witBlobId : BlobId :=
  ⟨⟨List.replicate 32 0⟩, ⟨[0, 17]⟩, 7⟩

/-- The dispatch response produced under okResponseEnv and witConfig. -/
def witDispatchResp : DispatchResponse :=
  { blob_id := hex_encode (bincodeSerialize witBlobId) }

theorem hexDigit_roundtrip (n : Nat) (h : n < 16) :
    hexDigitToNat (natToHexDigit n) = some n := by
  interval_cases n <;> decide

theorem hexDecode_hexEncode (bs : List Nat) (h : ValidBytes bs) :
    hexDecode (hexEncode bs) = some bs := by
  induction bs with
  | nil => rfl
  | cons b rest ih =>
    have hb : b < 256 := h b (by simp)
    have hrest : ValidBytes rest := fun x hx => h x (by simp [hx])
    have hhi : b / 16 < 16 := by omega
    have hlo : b % 16 < 16 := by omega
    have hdm : 16 * (b / 16) + b % 16 = b := Nat.div_add_mod b 16
    simp only [hexEncode, hexDecode, hexDigit_roundtrip _ hhi,
      hexDigit_roundtrip _ hlo, ih hrest, hdm]

theorem leBytes_u64_roundtrip (n : Nat) (h : n < 18446744073709551616) :
    leBytesToNat (u64ToLEBytes n) = n := by
  simp only [u64ToLEBytes, leBytesToNat]
  omega

theorem bincode_roundtrip (id : BlobId) (h : id.Valid) :
    bincodeDeserialize (bincodeSerialize id) = some id := by
  obtain ⟨hc, _, hn, _, hh⟩ := h
  have hlen : (bincodeSerialize id).length = 69 := by
    simp [bincodeSerialize, hc, hn, u64ToLEBytes]
  have hser : bincodeSerialize id =
      id.commitment.bytes ++ (id.ns.bytes ++ u64ToLEBytes id.height) := by
    simp [bincodeSerialize]
  have htake32 : (bincodeSerialize id).take 32 = id.commitment.bytes := by
    rw [hser]; exact List.take_left' hc
  have hdrop32 : (bincodeSerialize id).drop 32 =
      id.ns.bytes ++ u64ToLEBytes id.height := by
    rw [hser]; exact List.drop_left' hc
  have htake29 : ((bincodeSerialize id).drop 32).take 29 = id.ns.bytes := by
    rw [hdrop32]; exact List.take_left' hn
  have hser61 : bincodeSerialize id =
      (id.commitment.bytes ++ id.ns.bytes) ++ u64ToLEBytes id.height := by
    simp [bincodeSerialize]
  have hdrop61 : (bincodeSerialize id).drop 61 = u64ToLEBytes id.height := by
    rw [hser61]
    exact List.drop_left' (by simp [hc, hn])
  have htake8 : ((bincodeSerialize id).drop 61).take 8 =
      u64ToLEBytes id.height := by
    rw [hdrop61]
    exact List.take_of_length_le (by simp [u64ToLEBytes])
  simp only [bincodeDeserialize, hlen, htake32, htake29, htake8,
    leBytes_u64_roundtrip _ hh, if_pos (by omega : (69:Nat) ≤ 69)]

theorem serialize_validBytes (id : BlobId) (h : id.Valid) :
    ValidBytes (bincodeSerialize id) := by
  obtain ⟨_, hcv, _, hnv, _⟩ := h
  intro b hb
  simp only [bincodeSerialize, List.mem_append] at hb
  rcases hb with (hb | hb) | hb
  · exact hcv b hb
  · exact hnv b hb
  · simp only [u64ToLEBytes, List.mem_cons, List.not_mem_nil, or_false] at hb
    rcases hb with h | h | h | h | h | h | h | h <;> subst h <;> omega

/-- C1: round trip of the blob identifier codec: decoding the opaque
external string produced by encoding a valid BlobId (fixed binary
serialization followed by hex encoding) yields the same BlobId. -/
theorem blobId_codec_roundtrip (id : BlobId) (h : id.Valid) :
    decodeBlobId (encodeBlobId id) = some id := by
  unfold decodeBlobId encodeBlobId hex_decode hex_encode
  simp only [String.data]
  rw [hexDecode_hexEncode _ (serialize_validBytes id h)]
  simpa using bincode_roundtrip id h

/-- Witness for C1: the codec round trip at the all-zero BlobId. -/
theorem blobId_codec_roundtrip_witness :
    (BlobId.Valid ⟨⟨List.replicate 32 0⟩, ⟨List.replicate 29 0⟩, 0⟩) ∧
      decodeBlobId (encodeBlobId ⟨⟨List.replicate 32 0⟩, ⟨List.replicate 29 0⟩, 0⟩) =
        some ⟨⟨List.replicate 32 0⟩, ⟨List.replicate 29 0⟩, 0⟩ :=
  ⟨by decide, blobId_codec_roundtrip _ (by decide)⟩

/-- C4: for every inclusion-service response with status Complete but no
proof payload present, get_inclusion_data returns the fixed non-retriable
DAError about the broken upstream invariant, never Ok. -/
theorem get_inclusion_complete_without_proof (env : DispatchEnv)
    (self : CelestiaClient) (blob_id : String) (bid : BlobId)
    (resp : GetKeccakInclusionResponse) (rd : Option InclusionResponseValue)
    (hdec : decodeBlobId blob_id = some bid)
    (hresp : env.getKeccakInclusion bid = .ok resp)
    (hval : responseValueTryFrom resp.response_value = some rd)
    (hstatus : statusTryFrom resp.status = some .complete)
    (hnoproof : ∀ p, rd ≠ some (InclusionResponseValue.proof p)) :
    CelestiaClient.get_inclusion_data env self blob_id =
      .error { error := "Complete status should be accompanied by a Proof, eq-service is broken",
               is_retriable := false } := by
  unfold decodeBlobId at hdec
  obtain ⟨bs, hbs, hbid⟩ := Option.bind_eq_some.mp hdec
  simp only [CelestiaClient.get_inclusion_data, hbs, hbid, hresp, hval, hstatus]

/-- Witness for C4: a Complete response carrying no value yields the
invariant-violation error. -/
theorem get_inclusion_complete_without_proof_witness :
    CelestiaClient.get_inclusion_data
        (okResponseEnv ⟨3, RawResponseValue.none⟩) witClient zeroBlobIdStr =
      .error { error := "Complete status should be accompanied by a Proof, eq-service is broken",
               is_retriable := false } :=
  get_inclusion_complete_without_proof _ _ _ zeroBlobId _ Option.none
    (by decide) rfl rfl rfl (by intro p h; exact Option.noConfusion h)

/-- C5: for every well-formed inclusion-service response, Complete status
with a proof payload yields Ok Some of exactly that payload, and any
status other than Complete yields Ok None. -/
theorem get_inclusion_status_interpretation (env : DispatchEnv)
    (self : CelestiaClient) (blob_id : String) (bid : BlobId)
    (resp : GetKeccakInclusionResponse) (rd : Option InclusionResponseValue)
    (st : InclusionResponseStatus)
    (hdec : decodeBlobId blob_id = some bid)
    (hresp : env.getKeccakInclusion bid = .ok resp)
    (hval : responseValueTryFrom resp.response_value = some rd)
    (hstatus : statusTryFrom resp.status = some st) :
    (∀ p, st = .complete → rd = some (InclusionResponseValue.proof p) →
        CelestiaClient.get_inclusion_data env self blob_id =
          .ok (some { data := p })) ∧
      (st ≠ .complete →
        CelestiaClient.get_inclusion_data env self blob_id = .ok Option.none) := by
  unfold decodeBlobId at hdec
  obtain ⟨bs, hbs, hbid⟩ := Option.bind_eq_some.mp hdec
  constructor
  · intro p hst hrd
    subst hst
    subst hrd
    simp only [CelestiaClient.get_inclusion_data, hbs, hbid, hresp, hval, hstatus]
  · intro hne
    simp only [CelestiaClient.get_inclusion_data, hbs, hbid, hresp, hval, hstatus]

/-- Witness for C5: a Complete response carrying proof bytes yields Ok Some
of those bytes. -/
theorem get_inclusion_status_interpretation_witness :
    CelestiaClient.get_inclusion_data
        (okResponseEnv ⟨3, RawResponseValue.proof [1, 2, 3]⟩) witClient zeroBlobIdStr =
      .ok (some { data := [1, 2, 3] }) :=
  (get_inclusion_status_interpretation _ _ _ zeroBlobId
      ⟨3, RawResponseValue.proof [1, 2, 3]⟩
      (some (InclusionResponseValue.proof [1, 2, 3])) .complete
      (by decide) rfl rfl rfl).1 [1, 2, 3] rfl rfl

/-- C6: for every input string that does not decode into a BlobId, the
result of get_inclusion_data is one fixed non-retriable DAError for every
environment and client, so the failure happens before any query to the
inclusion-proof service. -/
theorem get_inclusion_malformed_id (blob_id : String)
    (h : decodeBlobId blob_id = Option.none) :
    ∃ e : DAError, e.is_retriable = false ∧
      ∀ (env : DispatchEnv) (self : CelestiaClient),
        CelestiaClient.get_inclusion_data env self blob_id = .error e := by
  unfold decodeBlobId at h
  cases hbs : hex_decode blob_id with
  | none =>
    refine ⟨to_non_retriable_da_error "blob id hex decode error", rfl, ?_⟩
    intro env self
    simp only [CelestiaClient.get_inclusion_data, hbs]
  | some bs =>
    rw [hbs] at h
    simp only [Option.some_bind] at h
    refine ⟨to_non_retriable_da_error "blob id bincode decode error", rfl, ?_⟩
    intro env self
    simp only [CelestiaClient.get_inclusion_data, hbs, h]

/-- Witness for C6: the invalid hex string zz produces a non-retriable
error under every environment. -/
theorem get_inclusion_malformed_id_witness :
    ∃ e : DAError, e.is_retriable = false ∧
      ∀ (env : DispatchEnv) (self : CelestiaClient),
        CelestiaClient.get_inclusion_data env self "zz" = .error e :=
  get_inclusion_malformed_id "zz" (by decide)

/-- C10: for every inclusion-service response whose raw status code or raw
value discriminant does not convert into a known variant,
get_inclusion_data returns a non-retriable DAError before any status
interpretation. -/
theorem get_inclusion_unknown_wire (env : DispatchEnv) (self : CelestiaClient)
    (blob_id : String) (bid : BlobId) (resp : GetKeccakInclusionResponse)
    (hdec : decodeBlobId blob_id = some bid)
    (hresp : env.getKeccakInclusion bid = .ok resp)
    (hbad : responseValueTryFrom resp.response_value = Option.none ∨
      statusTryFrom resp.status = Option.none) :
    ∃ e : DAError,
      CelestiaClient.get_inclusion_data env self blob_id = .error e ∧
        e.is_retriable = false := by
  unfold decodeBlobId at hdec
  obtain ⟨bs, hbs, hbid⟩ := Option.bind_eq_some.mp hdec
  rcases hbad with hv | hs
  · refine ⟨to_non_retriable_da_error "response value conversion error", ?_, rfl⟩
    simp only [CelestiaClient.get_inclusion_data, hbs, hbid, hresp, hv]
  · cases hv : responseValueTryFrom resp.response_value with
    | none =>
      refine ⟨to_non_retriable_da_error "response value conversion error", ?_, rfl⟩
      simp only [CelestiaClient.get_inclusion_data, hbs, hbid, hresp, hv]
    | some rd =>
      refine ⟨to_non_retriable_da_error "status conversion error", ?_, rfl⟩
      simp only [CelestiaClient.get_inclusion_data, hbs, hbid, hresp, hv, hs]

/-- Witness for C10: an unknown raw status code 99 yields a non-retriable
error. -/
theorem get_inclusion_unknown_wire_witness :
    ∃ e : DAError,
      CelestiaClient.get_inclusion_data
          (okResponseEnv ⟨99, RawResponseValue.none⟩) witClient zeroBlobIdStr =
        .error e ∧ e.is_retriable = false :=
  get_inclusion_unknown_wire _ _ _ zeroBlobId _ (by decide) rfl (Or.inr (by decide))

/-- C9: the debug rendering of the client reads only the api_node_url and
namespace configuration fields, so any two clients agreeing on those two
fields, in particular two clients differing only in the secret signing
key, have identical debug output. -/
theorem debug_independent_of_secret (c1 c2 : CelestiaClient)
    (hurl : c1.config.api_node_url = c2.config.api_node_url)
    (hns : c1.config.ns = c2.config.ns) :
    c1.debugFmt = c2.debugFmt := by
  unfold CelestiaClient.debugFmt
  rw [hurl, hns]

/-- Witness for C9: two clients differing only in the private key render
identically. -/
theorem debug_independent_of_secret_witness :
    witClient.celestia_client.private_key ≠
        witClientOtherKey.celestia_client.private_key ∧
      witClient.config = witClientOtherKey.config ∧
      witClient.debugFmt = witClientOtherKey.debugFmt :=
  ⟨by decide, rfl, debug_independent_of_secret _ _ rfl rfl⟩

/-- C8: blob_size_limit is the fixed constant 1973786 on every client,
that constant is strictly below 2097152, and dispatch_blob performs no
payload-size check: whenever the external steps succeed, dispatch succeeds
for a payload of any length. -/
theorem blob_size_limit_advisory (self : CelestiaClient) (env : DispatchEnv)
    (data : List Nat) (nb : List Nat) (ns : Namespace) (blob : Blob)
    (tx : BlobTx) (height : Nat) (resp : GetKeccakInclusionResponse)
    (hnb : hex_decode self.config.ns = some nb)
    (hns : env.namespaceNewV0 nb = .ok ns)
    (hblob : env.blobNew ns data = .ok blob)
    (htx : env.prepare [blob] = .ok tx)
    (hsub : env.submit (env.computeBlobTxHash tx) tx = .ok height)
    (hincl : env.getKeccakInclusion ⟨blob.commitment, ns, height⟩ = .ok resp) :
    self.blob_size_limit = some 1973786 ∧ 1973786 < 2097152 ∧
      CelestiaClient.dispatch_blob env self data =
        .ok { blob_id := hex_encode (bincodeSerialize ⟨blob.commitment, ns, height⟩) } := by
  refine ⟨rfl, by norm_num, ?_⟩
  simp only [CelestiaClient.dispatch_blob, hnb, hns, hblob, htx, hsub, hincl]

/-- Witness for C8: a payload one byte above the advertised limit still
dispatches successfully when every external step succeeds. -/
theorem blob_size_limit_advisory_witness :
    witClient.blob_size_limit = some 1973786 ∧ 1973786 < 2097152 ∧
      CelestiaClient.dispatch_blob (okResponseEnv ⟨1, RawResponseValue.none⟩)
          witClient (List.replicate 1973787 0) =
        .ok { blob_id := hex_encode (bincodeSerialize
          ⟨⟨List.replicate 32 0⟩, ⟨[0, 17]⟩, 7⟩) } :=
  blob_size_limit_advisory witClient (okResponseEnv ⟨1, RawResponseValue.none⟩)
    (List.replicate 1973787 0) [0, 17] ⟨[0, 17]⟩
    ⟨⟨[0, 17]⟩, List.replicate 1973787 0, ⟨List.replicate 32 0⟩⟩ ⟨[]⟩ 7
    ⟨1, RawResponseValue.none⟩ (by decide) rfl rfl rfl rfl rfl

/-- C2: dispatch success postcondition: whenever dispatch_blob succeeds,
the returned string is the hex encoding of the fixed serialization of the
BlobId whose namespace was decoded from configuration, whose commitment
is the commitment of the blob constructed from the payload, and whose
height came from the network submission. -/
theorem dispatch_blob_success_postcondition (env : DispatchEnv)
    (self : CelestiaClient) (data : List Nat) (resp : DispatchResponse)
    (h : CelestiaClient.dispatch_blob env self data = .ok resp) :
    ∃ namespace_bytes ns blob blob_tx height resp0,
      hex_decode self.config.ns = some namespace_bytes ∧
        env.namespaceNewV0 namespace_bytes = .ok ns ∧
        env.blobNew ns data = .ok blob ∧
        env.prepare [blob] = .ok blob_tx ∧
        env.submit (env.computeBlobTxHash blob_tx) blob_tx = .ok height ∧
        env.getKeccakInclusion ⟨blob.commitment, ns, height⟩ = .ok resp0 ∧
        resp.blob_id = hex_encode (bincodeSerialize ⟨blob.commitment, ns, height⟩) := by
  cases hnb : hex_decode self.config.ns with
  | none =>
    have hd : CelestiaClient.dispatch_blob env self data =
        .error (to_non_retriable_da_error "namespace hex decode error") := by
      simp only [CelestiaClient.dispatch_blob, hnb]
    rw [hd] at h
    exact Except.noConfusion h
  | some namespace_bytes =>
    cases hns : env.namespaceNewV0 namespace_bytes with
    | error err =>
      have hd : CelestiaClient.dispatch_blob env self data =
          .error (to_non_retriable_da_error err) := by
        simp only [CelestiaClient.dispatch_blob, hnb, hns]
      rw [hd] at h
      exact Except.noConfusion h
    | ok ns =>
      cases hblob : env.blobNew ns data with
      | error err =>
        have hd : CelestiaClient.dispatch_blob env self data =
            .error (to_non_retriable_da_error err) := by
          simp only [CelestiaClient.dispatch_blob, hnb, hns, hblob]
        rw [hd] at h
        exact Except.noConfusion h
      | ok blob =>
        cases htx : env.prepare [blob] with
        | error err =>
          have hd : CelestiaClient.dispatch_blob env self data =
              .error (to_non_retriable_da_error err) := by
            simp only [CelestiaClient.dispatch_blob, hnb, hns, hblob, htx]
          rw [hd] at h
          exact Except.noConfusion h
        | ok blob_tx =>
          cases hsub : env.submit (env.computeBlobTxHash blob_tx) blob_tx with
          | error err =>
            have hd : CelestiaClient.dispatch_blob env self data =
                .error (to_non_retriable_da_error err) := by
              simp only [CelestiaClient.dispatch_blob, hnb, hns, hblob, htx, hsub]
            rw [hd] at h
            exact Except.noConfusion h
          | ok height =>
            cases hincl : env.getKeccakInclusion ⟨blob.commitment, ns, height⟩ with
            | error ts =>
              have hd : CelestiaClient.dispatch_blob env self data =
                  .error { error := ts, is_retriable := true } := by
                simp only [CelestiaClient.dispatch_blob, hnb, hns, hblob, htx, hsub, hincl]
              rw [hd] at h
              exact Except.noConfusion h
            | ok resp0 =>
              have hd : CelestiaClient.dispatch_blob env self data =
                  .ok { blob_id :=
                    hex_encode (bincodeSerialize ⟨blob.commitment, ns, height⟩) } := by
                simp only [CelestiaClient.dispatch_blob, hnb, hns, hblob, htx, hsub, hincl]
              rw [hd] at h
              have hxr := Except.ok.inj h
              exact ⟨namespace_bytes, ns, blob, blob_tx, height, resp0,
                rfl, hns, hblob, htx, hsub, hincl, by rw [← hxr]⟩

/-- Witness for C2: the dispatch postcondition at a concrete succeeding
environment and payload. -/
theorem dispatch_blob_success_postcondition_witness :
    ∃ namespace_bytes ns blob blob_tx height resp0,
      hex_decode witClient.config.ns = some namespace_bytes ∧
        (okResponseEnv ⟨1, RawResponseValue.none⟩).namespaceNewV0 namespace_bytes = .ok ns ∧
        (okResponseEnv ⟨1, RawResponseValue.none⟩).blobNew ns [5] = .ok blob ∧
        (okResponseEnv ⟨1, RawResponseValue.none⟩).prepare [blob] = .ok blob_tx ∧
        (okResponseEnv ⟨1, RawResponseValue.none⟩).submit
            ((okResponseEnv ⟨1, RawResponseValue.none⟩).computeBlobTxHash blob_tx) blob_tx =
          .ok height ∧
        (okResponseEnv ⟨1, RawResponseValue.none⟩).getKeccakInclusion
            ⟨blob.commitment, ns, height⟩ = .ok resp0 ∧
        ({ blob_id := hex_encode (bincodeSerialize ⟨⟨List.replicate 32 0⟩, ⟨[0, 17]⟩, 7⟩) } :
            DispatchResponse).blob_id =
          hex_encode (bincodeSerialize ⟨blob.commitment, ns, height⟩) :=
  dispatch_blob_success_postcondition (okResponseEnv ⟨1, RawResponseValue.none⟩)
    witClient [5]
    { blob_id := hex_encode (bincodeSerialize ⟨⟨List.replicate 32 0⟩, ⟨[0, 17]⟩, 7⟩) }
    (by rfl)

/-- C3: dispatch failure classification: a dispatch failure is retriable
exactly when every step up to and including network submission succeeded
and the post-submission registration with the inclusion-proof service
failed; every earlier failure is non-retriable. -/
theorem dispatch_blob_error_classification (env : DispatchEnv)
    (self : CelestiaClient) (data : List Nat) (e : DAError)
    (h : CelestiaClient.dispatch_blob env self data = .error e) :
    e.is_retriable = true ↔
      ∃ namespace_bytes ns blob blob_tx height,
        hex_decode self.config.ns = some namespace_bytes ∧
          env.namespaceNewV0 namespace_bytes = .ok ns ∧
          env.blobNew ns data = .ok blob ∧
          env.prepare [blob] = .ok blob_tx ∧
          env.submit (env.computeBlobTxHash blob_tx) blob_tx = .ok height ∧
          env.getKeccakInclusion ⟨blob.commitment, ns, height⟩ = .error e.error := by
  cases hnb : hex_decode self.config.ns with
  | none =>
    have hd : CelestiaClient.dispatch_blob env self data =
        .error (to_non_retriable_da_error "namespace hex decode error") := by
      simp only [CelestiaClient.dispatch_blob, hnb]
    rw [hd] at h
    obtain rfl := Except.error.inj h
    refine iff_of_false (by simp [to_non_retriable_da_error]) ?_
    rintro ⟨nb, ns, blob, btx, ht, h1, h2, h3, h4, h5, h6⟩
    exact Option.noConfusion h1
  | some namespace_bytes =>
    cases hns : env.namespaceNewV0 namespace_bytes with
    | error err =>
      have hd : CelestiaClient.dispatch_blob env self data =
          .error (to_non_retriable_da_error err) := by
        simp only [CelestiaClient.dispatch_blob, hnb, hns]
      rw [hd] at h
      obtain rfl := Except.error.inj h
      refine iff_of_false (by simp [to_non_retriable_da_error]) ?_
      rintro ⟨nb, ns, blob, btx, ht, h1, h2, h3, h4, h5, h6⟩
      obtain rfl := Option.some.inj h1
      rw [hns] at h2
      exact Except.noConfusion h2
    | ok ns =>
      cases hblob : env.blobNew ns data with
      | error err =>
        have hd : CelestiaClient.dispatch_blob env self data =
            .error (to_non_retriable_da_error err) := by
          simp only [CelestiaClient.dispatch_blob, hnb, hns, hblob]
        rw [hd] at h
        obtain rfl := Except.error.inj h
        refine iff_of_false (by simp [to_non_retriable_da_error]) ?_
        rintro ⟨nb, ns1, blob, btx, ht, h1, h2, h3, h4, h5, h6⟩
        obtain rfl := Option.some.inj h1
        rw [hns] at h2
        obtain rfl := Except.ok.inj h2
        rw [hblob] at h3
        exact Except.noConfusion h3
      | ok blob =>
        cases htx : env.prepare [blob] with
        | error err =>
          have hd : CelestiaClient.dispatch_blob env self data =
              .error (to_non_retriable_da_error err) := by
            simp only [CelestiaClient.dispatch_blob, hnb, hns, hblob, htx]
          rw [hd] at h
          obtain rfl := Except.error.inj h
          refine iff_of_false (by simp [to_non_retriable_da_error]) ?_
          rintro ⟨nb, ns1, blob1, btx, ht, h1, h2, h3, h4, h5, h6⟩
          obtain rfl := Option.some.inj h1
          rw [hns] at h2
          obtain rfl := Except.ok.inj h2
          rw [hblob] at h3
          obtain rfl := Except.ok.inj h3
          rw [htx] at h4
          exact Except.noConfusion h4
        | ok blob_tx =>
          cases hsub : env.submit (env.computeBlobTxHash blob_tx) blob_tx with
          | error err =>
            have hd : CelestiaClient.dispatch_blob env self data =
                .error (to_non_retriable_da_error err) := by
              simp only [CelestiaClient.dispatch_blob, hnb, hns, hblob, htx, hsub]
            rw [hd] at h
            obtain rfl := Except.error.inj h
            refine iff_of_false (by simp [to_non_retriable_da_error]) ?_
            rintro ⟨nb, ns1, blob1, btx1, ht, h1, h2, h3, h4, h5, h6⟩
            obtain rfl := Option.some.inj h1
            rw [hns] at h2
            obtain rfl := Except.ok.inj h2
            rw [hblob] at h3
            obtain rfl := Except.ok.inj h3
            rw [htx] at h4
            obtain rfl := Except.ok.inj h4
            rw [hsub] at h5
            exact Except.noConfusion h5
          | ok height =>
            cases hincl : env.getKeccakInclusion ⟨blob.commitment, ns, height⟩ with
            | error ts =>
              have hd : CelestiaClient.dispatch_blob env self data =
                  .error { error := ts, is_retriable := true } := by
                simp only [CelestiaClient.dispatch_blob, hnb, hns, hblob, htx, hsub, hincl]
              rw [hd] at h
              obtain rfl := Except.error.inj h
              exact iff_of_true rfl
                ⟨namespace_bytes, ns, blob, blob_tx, height,
                  rfl, hns, hblob, htx, hsub, hincl⟩
            | ok resp0 =>
              have hd : CelestiaClient.dispatch_blob env self data =
                  .ok { blob_id :=
                    hex_encode (bincodeSerialize ⟨blob.commitment, ns, height⟩) } := by
                simp only [CelestiaClient.dispatch_blob, hnb, hns, hblob, htx, hsub, hincl]
              rw [hd] at h
              exact Except.noConfusion h

/-- Witness for C3: dispatch at an environment whose registration call
fails at the transport level yields a retriable error. -/
theorem dispatch_blob_error_classification_witness :
    ({ error := "transport down", is_retriable := true } : DAError).is_retriable = true ↔
      ∃ namespace_bytes ns blob blob_tx height,
        hex_decode witClient.config.ns = some namespace_bytes ∧
          errInclusionEnv.namespaceNewV0 namespace_bytes = .ok ns ∧
          errInclusionEnv.blobNew ns [5] = .ok blob ∧
          errInclusionEnv.prepare [blob] = .ok blob_tx ∧
          errInclusionEnv.submit (errInclusionEnv.computeBlobTxHash blob_tx) blob_tx =
            .ok height ∧
          errInclusionEnv.getKeccakInclusion ⟨blob.commitment, ns, height⟩ =
            .error ({ error := "transport down", is_retriable := true } : DAError).error :=
  dispatch_blob_error_classification errInclusionEnv witClient [5]
    { error := "transport down", is_retriable := true } (by rfl)

/-- Counterexample to C7 as stated: with connectable endpoints but a
failing RawCelestiaClient creation, the constructor panics through expect
instead of returning an error result. -/
theorem celestia_new_panics_on_raw_client_failure :
    CelestiaClient.new panicNewEnv witConfig witSecrets =
        .panicked "could not create Celestia client" ∧
      (CelestiaClient.new panicNewEnv witConfig witSecrets).isError = false := by
  exact ⟨rfl, rfl⟩

/-- C7 amended: both channels are established eagerly and any
channel-establishment failure is propagated immediately as an error
result; a signing-capability creation failure instead aborts by panic;
in every case an Ok result is a fully constructed client and a
partially-constructed client is never returned. -/
theorem celestia_new_atomic_classification (env : NewEnv)
    (config : CelestiaConfig) (secrets : CelestiaSecrets) :
    (∀ c, CelestiaClient.new env config secrets = .ok c →
        ∃ ch1 ch2,
          env.endpointConnect config.api_node_url config.timeout_ms = .ok ch1 ∧
            env.rawClientNewFail ch1 secrets.private_key config.chain_id = Option.none ∧
            env.endpointConnect config.integration_service_url config.timeout_ms = .ok ch2 ∧
            c = ⟨config, IntegrationClient.new ch2,
              ⟨ch1, secrets.private_key, config.chain_id⟩⟩) ∧
      (∀ e, CelestiaClient.new env config secrets = .error e →
        env.endpointConnect config.api_node_url config.timeout_ms = .error e ∨
          ∃ ch1,
            env.endpointConnect config.api_node_url config.timeout_ms = .ok ch1 ∧
              env.rawClientNewFail ch1 secrets.private_key config.chain_id = Option.none ∧
              env.endpointConnect config.integration_service_url config.timeout_ms =
                .error e) ∧
      (∀ m, CelestiaClient.new env config secrets = .panicked m →
        m = "could not create Celestia client" ∧
          ∃ ch1 err,
            env.endpointConnect config.api_node_url config.timeout_ms = .ok ch1 ∧
              env.rawClientNewFail ch1 secrets.private_key config.chain_id = some err) := by
  refine ⟨?_, ?_, ?_⟩
  · intro c hc
    cases h1 : env.endpointConnect config.api_node_url config.timeout_ms with
    | error e1 =>
      have hd : CelestiaClient.new env config secrets = .error e1 := by
        simp only [CelestiaClient.new, h1]
      rw [hd] at hc
      exact NewOutcome.noConfusion hc
    | ok ch1 =>
      cases h2 : env.rawClientNewFail ch1 secrets.private_key config.chain_id with
      | some err =>
        have hd : CelestiaClient.new env config secrets =
            .panicked "could not create Celestia client" := by
          simp only [CelestiaClient.new, h1, h2]
        rw [hd] at hc
        exact NewOutcome.noConfusion hc
      | none =>
        cases h3 : env.endpointConnect config.integration_service_url config.timeout_ms with
        | error e2 =>
          have hd : CelestiaClient.new env config secrets = .error e2 := by
            simp only [CelestiaClient.new, h1, h2, h3]
          rw [hd] at hc
          exact NewOutcome.noConfusion hc
        | ok ch2 =>
          have hd : CelestiaClient.new env config secrets =
              .ok ⟨config, IntegrationClient.new ch2,
                ⟨ch1, secrets.private_key, config.chain_id⟩⟩ := by
            simp only [CelestiaClient.new, h1, h2, h3]
          rw [hd] at hc
          exact ⟨ch1, ch2, rfl, h2, rfl, (NewOutcome.ok.inj hc).symm⟩
  · intro e he
    cases h1 : env.endpointConnect config.api_node_url config.timeout_ms with
    | error e1 =>
      have hd : CelestiaClient.new env config secrets = .error e1 := by
        simp only [CelestiaClient.new, h1]
      rw [hd] at he
      obtain rfl := NewOutcome.error.inj he
      exact Or.inl rfl
    | ok ch1 =>
      cases h2 : env.rawClientNewFail ch1 secrets.private_key config.chain_id with
      | some err =>
        have hd : CelestiaClient.new env config secrets =
            .panicked "could not create Celestia client" := by
          simp only [CelestiaClient.new, h1, h2]
        rw [hd] at he
        exact NewOutcome.noConfusion he
      | none =>
        cases h3 : env.endpointConnect config.integration_service_url config.timeout_ms with
        | error e2 =>
          have hd : CelestiaClient.new env config secrets = .error e2 := by
            simp only [CelestiaClient.new, h1, h2, h3]
          rw [hd] at he
          obtain rfl := NewOutcome.error.inj he
          exact Or.inr ⟨ch1, rfl, h2, rfl⟩
        | ok ch2 =>
          have hd : CelestiaClient.new env config secrets =
              .ok ⟨config, IntegrationClient.new ch2,
                ⟨ch1, secrets.private_key, config.chain_id⟩⟩ := by
            simp only [CelestiaClient.new, h1, h2, h3]
          rw [hd] at he
          exact NewOutcome.noConfusion he
  · intro m hm
    cases h1 : env.endpointConnect config.api_node_url config.timeout_ms with
    | error e1 =>
      have hd : CelestiaClient.new env config secrets = .error e1 := by
        simp only [CelestiaClient.new, h1]
      rw [hd] at hm
      exact NewOutcome.noConfusion hm
    | ok ch1 =>
      cases h2 : env.rawClientNewFail ch1 secrets.private_key config.chain_id with
      | some err =>
        have hd : CelestiaClient.new env config secrets =
            .panicked "could not create Celestia client" := by
          simp only [CelestiaClient.new, h1, h2]
        rw [hd] at hm
        obtain rfl := (NewOutcome.panicked.inj hm).symm
        exact ⟨rfl, ch1, err, rfl, h2⟩
      | none =>
        cases h3 : env.endpointConnect config.integration_service_url config.timeout_ms with
        | error e2 =>
          have hd : CelestiaClient.new env config secrets = .error e2 := by
            simp only [CelestiaClient.new, h1, h2, h3]
          rw [hd] at hm
          exact NewOutcome.noConfusion hm
        | ok ch2 =>
          have hd : CelestiaClient.new env config secrets =
              .ok ⟨config, IntegrationClient.new ch2,
                ⟨ch1, secrets.private_key, config.chain_id⟩⟩ := by
            simp only [CelestiaClient.new, h1, h2, h3]
          rw [hd] at hm
          exact NewOutcome.noConfusion hm

/-- Witness for C7 amended: a fully successful construction returns the
fully constructed client. -/
theorem celestia_new_atomic_classification_witness :
    ∃ ch1 ch2,
      okNewEnv.endpointConnect witConfig.api_node_url witConfig.timeout_ms = .ok ch1 ∧
        okNewEnv.rawClientNewFail ch1 witSecrets.private_key witConfig.chain_id =
          Option.none ∧
        okNewEnv.endpointConnect witConfig.integration_service_url witConfig.timeout_ms =
          .ok ch2 ∧
        ({ config := witConfig, integration_client := IntegrationClient.new ⟨0⟩,
           celestia_client := ⟨⟨0⟩, "secret-key", "mocha-4"⟩ } : CelestiaClient) =
          ⟨witConfig, IntegrationClient.new ch2,
            ⟨ch1, witSecrets.private_key, witConfig.chain_id⟩⟩ :=
  (celestia_new_atomic_classification okNewEnv witConfig witSecrets).1
    { config := witConfig, integration_client := IntegrationClient.new ⟨0⟩,
      celestia_client := ⟨⟨0⟩, "secret-key", "mocha-4"⟩ } (by rfl)

end Celestia
